import Mathlib

/-!
Verification of the cluster provisioning artifact from pkg/asset/cluster/cluster.go.

The Go function Cluster.Generate performs external I/O: it creates a temporary
directory, writes the terraform variables file, unpacks platform templates,
marshals metadata to JSON, and invokes terraform init and apply, then reads the
state file back. We embed it as a pure function parameterised by an Env record
holding the outcome of each external operation, and returning the final error,
the final FileList and a trace of the externally visible events in program
order. Go defer semantics are translated explicitly: the RemoveAll defer is
registered right after the temporary directory is created, and the metadata
finalizer defer is registered after the platform templates are unpacked;
deferred functions run in LIFO order on every return (and on panic) from the
point of their registration onwards.

Go errors are modelled as strings; errors.Wrap(err, msg) produces "msg: err".
JSON serialization of the metadata record is modelled by a FileData constructor
carrying the record itself (Marshal is injective on this record type and
Unmarshal is its inverse), with the possibility of a Marshal failure supplied
by the environment.
-/

deriving instance DecidableEq for Except

namespace Installer

/-- Metadata recorded for an AWS cluster: region plus an identifier map
(from types.ClusterAWSPlatformMetadata as used in cluster.go). -/
structure ClusterAWSPlatformMetadata where
  region : String
  identifier : List (String × String)
deriving DecidableEq, Repr

/-- Metadata recorded for an OpenStack cluster: region plus an identifier map. -/
structure ClusterOpenStackPlatformMetadata where
  region : String
  identifier : List (String × String)
deriving DecidableEq, Repr

/-- Metadata recorded for a libvirt cluster: the connection URI. -/
structure ClusterLibvirtPlatformMetadata where
  uri : String
deriving DecidableEq, Repr

/-- The cluster metadata record staged as metadata.json: the cluster name and
at most one platform-specific section (types.ClusterMetadata with its embedded
ClusterPlatformMetadata flattened). -/
structure ClusterMetadata where
  clusterName : String
  aws : Option ClusterAWSPlatformMetadata
  openstack : Option ClusterOpenStackPlatformMetadata
  libvirt : Option ClusterLibvirtPlatformMetadata
deriving DecidableEq, Repr

/-- Payload of a staged file: either opaque bytes, or the JSON serialization of
a metadata record, kept in structured form so that decoding is definable. -/
inductive FileData where
  | bytes (bs : List Nat)
  | metaJSON (m : ClusterMetadata)
deriving DecidableEq, Repr

/-- Decoding the metadata file: inverse of the modelled JSON serialization. -/
def decodeClusterMetadata : FileData → Option ClusterMetadata
  | FileData.metaJSON m => some m
  | FileData.bytes _ => none

/-- An output file record (asset.File): a relative filename plus payload. -/
structure File where
  filename : String
  data : FileData
deriving DecidableEq, Repr

/-- AWS section of the install config platform (only the region is read). -/
structure AWSPlatform where
  region : String
deriving DecidableEq, Repr

/-- OpenStack section of the install config platform. -/
structure OpenStackPlatform where
  region : String
deriving DecidableEq, Repr

/-- Libvirt section of the install config platform (only the URI is read). -/
structure LibvirtPlatform where
  uri : String
deriving DecidableEq, Repr

/-- The platform selection of the install config: at most one of the mutually
exclusive sections is set (types.Platform as read by cluster.go). -/
structure Platform where
  aws : Option AWSPlatform
  openstack : Option OpenStackPlatform
  libvirt : Option LibvirtPlatform
deriving DecidableEq, Repr

/-- The parts of the install configuration that cluster.go reads: the object
name, the cluster ID and the platform selection. -/
structure InstallConfig where
  name : String
  clusterID : String
  platform : Platform
deriving DecidableEq, Repr

/-- Modelled from the spec: types.Platform.Name is outside src; per the spec
the configuration carries exactly one of several mutually exclusive platform
sections, and the name labels the chosen one (empty when none is set). -/
def Platform.platformName (p : Platform) : String :=
  if p.aws.isSome then "aws"
  else if p.openstack.isSome then "openstack"
  else if p.libvirt.isSome then "libvirt"
  else ""

/-- Name of the file where cluster metadata is stored (MetadataFilename). -/
def MetadataFilename : String := "metadata.json"

/-- Name of the terraform state file (stateFileName). -/
def stateFileName : String := "terraform.tfstate"

/-- Model of errors.Wrap: the message, a colon and the wrapped cause. -/
def wrap (msg e : String) : String := msg ++ ": " ++ e

/-- Outcomes of the external operations Generate performs, in program order.
Each field is the result the corresponding call would return. -/
structure Env where
  tempDir : Except String String
  writeVars : Except String Unit
  unpackPlatform : Except String Unit
  unpackConfig : Except String Unit
  marshal : Except String Unit
  tfInit : Except String Unit
  applyErr : Option String
  applyPath : String
  readState : Except String (List Nat)
deriving DecidableEq, Repr

/-- Externally visible events of one Generate call, in program order. -/
inductive Event where
  | createTempDir
  | writeVarsFile
  | unpackPlatformTemplates
  | classifyPlatform
  | unpackConfigTf
  | terraformInit
  | terraformApply
  | readStateFile
  | stageMetadata
  | removeTempDir
deriving DecidableEq, Repr

/-- Result of one Generate call: either a runtime panic (out-of-bounds index),
or a normal return with the final error, FileList and event trace. -/
inductive GenResult where
  | panicked (trace : List Event)
  | done (err : Option String) (files : List File) (trace : List Event)
deriving DecidableEq, Repr

/-- Event trace of a result (deferred functions also run while panicking). -/
def GenResult.trace : GenResult → List Event
  | GenResult.panicked t => t
  | GenResult.done _ _ t => t

/-- Final FileList of a result (empty if the call panicked). -/
def GenResult.files : GenResult → List File
  | GenResult.panicked _ => []
  | GenResult.done _ fs _ => fs

/-- Final returned error of a result (none if the call panicked). -/
def GenResult.err : GenResult → Option String
  | GenResult.panicked _ => none
  | GenResult.done e _ _ => e

/-- Whether the call panicked. -/
def GenResult.isPanicked : GenResult → Bool
  | GenResult.panicked _ => true
  | GenResult.done _ _ _ => false

/-- The switch statement of Generate, lines 96-117: the first matching platform
section fills in the platform part of the metadata record, which at that point
holds only the cluster name; none matching is the default case. -/
def classify (cfg : InstallConfig) : Option ClusterMetadata :=
  match cfg.platform.aws with
  | some a =>
    some ⟨cfg.name, some ⟨a.region, [("tectonicClusterID", cfg.clusterID)]⟩, none, none⟩
  | none =>
    match cfg.platform.openstack with
    | some o =>
      some ⟨cfg.name, none, some ⟨o.region, [("tectonicClusterID", cfg.clusterID)]⟩, none⟩
    | none =>
      match cfg.platform.libvirt with
      | some l => some ⟨cfg.name, none, none, some ⟨l.uri⟩⟩
      | none => none

/-- The deferred metadata finalizer of Generate, lines 79-94: marshal the
metadata record; on success append metadata.json to the FileList; on failure
promote the wrapped marshal error to the returned error only when the returned
error is still nil, otherwise log it and leave the error unchanged. -/
def finalize (env : Env) (m : ClusterMetadata) (err : Option String)
    (files : List File) : Option String × List File :=
  match env.marshal with
  | Except.ok _ => (err, files ++ [⟨MetadataFilename, FileData.metaJSON m⟩])
  | Except.error e2 =>
    match err with
    | none => (some (wrap "failed to Marshal ClusterMetadata" e2), files)
    | some e => (some e, files)

/-- Shallow embedding of Cluster.Generate, cluster.go lines 52-149. The
Cluster starts with FileList c0, and tfVars is the FileList of the
TerraformVariables dependency, whose first element is indexed unconditionally.
Every return after the temporary directory is created runs the RemoveAll defer
last; every return after line 79 first runs the metadata finalizer defer. -/
def generate (env : Env) (cfg : InstallConfig) (tfVars : List File)
    (c0 : List File) : GenResult :=
  match env.tempDir with
  | Except.error e =>
    GenResult.done (some (wrap "failed to create temp dir for terraform execution" e)) c0
      [Event.createTempDir]
  | Except.ok _ =>
    match tfVars with
    | [] => GenResult.panicked [Event.createTempDir, Event.removeTempDir]
    | _ :: _ =>
      match env.writeVars with
      | Except.error e =>
        GenResult.done (some (wrap "failed to write terraform.tfvars file" e)) c0
          [Event.createTempDir, Event.writeVarsFile, Event.removeTempDir]
      | Except.ok _ =>
        match env.unpackPlatform with
        | Except.error e =>
          GenResult.done (some e) c0
            [Event.createTempDir, Event.writeVarsFile, Event.unpackPlatformTemplates,
             Event.removeTempDir]
        | Except.ok _ =>
          let m0 : ClusterMetadata := ⟨cfg.name, none, none, none⟩
          let pre := [Event.createTempDir, Event.writeVarsFile,
            Event.unpackPlatformTemplates]
          match classify cfg with
          | none =>
            let r := finalize env m0 (some "no known platform") c0
            GenResult.done r.1 r.2
              (pre ++ [Event.classifyPlatform, Event.stageMetadata, Event.removeTempDir])
          | some m =>
            let pre2 := pre ++ [Event.classifyPlatform]
            match env.unpackConfig with
            | Except.error e =>
              let r := finalize env m (some e) c0
              GenResult.done r.1 r.2
                (pre2 ++ [Event.unpackConfigTf, Event.stageMetadata, Event.removeTempDir])
            | Except.ok _ =>
              match env.tfInit with
              | Except.error e =>
                let r := finalize env m (some (wrap "failed to initialize terraform" e)) c0
                GenResult.done r.1 r.2
                  (pre2 ++ [Event.unpackConfigTf, Event.terraformInit,
                    Event.stageMetadata, Event.removeTempDir])
              | Except.ok _ =>
                let applyErr := Option.map (wrap "failed to run terraform") env.applyErr
                let step :=
                  match env.readState with
                  | Except.ok bs =>
                    (applyErr, c0 ++ [File.mk stateFileName (FileData.bytes bs)])
                  | Except.error e2 =>
                    match applyErr with
                    | none => (some e2, c0)
                    | some e => (some e, c0)
                let r := finalize env m step.1 step.2
                GenResult.done r.1 r.2
                  (pre2 ++ [Event.unpackConfigTf, Event.terraformInit, Event.terraformApply,
                    Event.readStateFile, Event.stageMetadata, Event.removeTempDir])

/-- The storage probe handed to Load: for a filename, the bytes of the
persisted file if present, or an absence signal. -/
abbrev FileFetcher := String → Option (List Nat)

/-- Shallow embedding of Cluster.Load, cluster.go lines 160-165: if the state
file is on disk, report found together with the exact error the code formats
(fmt.Errorf with a %q-quoted filename); otherwise not found, no error. Load
reads nothing else and stages no files. -/
def Cluster.Load (f : FileFetcher) : Bool × Option String :=
  match f stateFileName with
  | some _ => (true, some ("\"" ++ stateFileName ++ "\" already exisits"))
  | none => (false, none)

/-- Replace the marshal outcome of an environment, leaving the rest alone. -/
def Env.withMarshal (env : Env) (r : Except String Unit) : Env :=
  ⟨env.tempDir, env.writeVars, env.unpackPlatform, env.unpackConfig, r,
   env.tfInit, env.applyErr, env.applyPath, env.readState⟩

/-- Environment in which every external operation succeeds. -/
def envAllOk : Env :=
  ⟨Except.ok "d", Except.ok (), Except.ok (), Except.ok (), Except.ok (),
   Except.ok (), none, "p", Except.ok [1, 2]⟩

/-- Environment in which terraform apply fails and the state read-back also
fails; everything else succeeds. -/
def envApplyReadFail : Env :=
  ⟨Except.ok "d", Except.ok (), Except.ok (), Except.ok (), Except.ok (),
   Except.ok (), some "boom", "p", Except.error "noread"⟩

/-- Environment in which writing the terraform variables file fails. -/
def envWriteVarsFail : Env :=
  ⟨Except.ok "d", Except.error "nowrite", Except.ok (), Except.ok (), Except.ok (),
   Except.ok (), none, "p", Except.ok []⟩

/-- Environment in which JSON serialization of the metadata record fails;
everything else succeeds. -/
def envMarshalFail : Env :=
  ⟨Except.ok "d", Except.ok (), Except.ok (), Except.ok (), Except.error "nojson",
   Except.ok (), none, "p", Except.ok []⟩

/-- Install config selecting AWS with region us-test-1 and cluster name demo. -/
def cfgAWSDemo : InstallConfig := ⟨"demo", "cid-123", ⟨some ⟨"us-test-1"⟩, none, none⟩⟩

/-- Install config with none of the recognized platform sections set. -/
def cfgNoPlatform : InstallConfig := ⟨"demo", "cid-123", ⟨none, none, none⟩⟩

/-- A one-element FileList for the terraform variables dependency. -/
def tfv1 : List File := [⟨"terraform.tfvars", FileData.bytes [0]⟩]

/-- The metadata record Generate builds for the cfgAWSDemo configuration. -/
def mAWS : ClusterMetadata :=
  ⟨"demo", some ⟨"us-test-1", [("tectonicClusterID", "cid-123")]⟩, none, none⟩

/-- C1: Load reports found together with an error exactly when the state file
is present, and not found with no error when it is absent; however, the error
message the code formats reads already exisits, a misspelling, so the message
does not state that the file already exists: the intended phrase is not a
substring of the produced message. -/
theorem load_found_iff_state_present_message_misspelled :
    Cluster.Load (fun n => if n = stateFileName then some [] else none)
        = (true, some "\"terraform.tfstate\" already exisits")
      ∧ Cluster.Load (fun _ => none) = (false, none)
      ∧ ¬ List.IsInfix "already exists".data
          "\"terraform.tfstate\" already exisits".data := by
  refine ⟨by decide, rfl, by decide⟩

/-- C2 counterexample: when writing the terraform variables file fails,
Generate returns without running the metadata finalizer: the FileList stays
empty and no metadata staging is attempted, although Generate was called. -/
theorem generate_writeVars_failure_stages_no_metadata :
    (generate envWriteVarsFail cfgAWSDemo tfv1 []).trace
        = [Event.createTempDir, Event.writeVarsFile, Event.removeTempDir]
      ∧ (generate envWriteVarsFail cfgAWSDemo tfv1 []).files = []
      ∧ Event.stageMetadata ∉ (generate envWriteVarsFail cfgAWSDemo tfv1 []).trace := by
  refine ⟨by decide, by decide, by decide⟩

/-- C2 amended: the metadata staging attempt happens in exactly those runs of
Generate that reach the registration of the deferred finalizer, namely when
the temporary directory is created, the variables dependency is non-empty and
its file is written, and the platform templates unpack successfully; failures
before that point return without any metadata attempt. -/
theorem generate_stages_metadata_iff_finalizer_registered
    (env : Env) (cfg : InstallConfig) (tfVars c0 : List File) :
    Event.stageMetadata ∈ (generate env cfg tfVars c0).trace ↔
      ((∃ d, env.tempDir = Except.ok d) ∧ tfVars ≠ []
        ∧ env.writeVars = Except.ok () ∧ env.unpackPlatform = Except.ok ()) := by
  cases htd : env.tempDir <;> cases tfVars <;> cases hwv : env.writeVars <;>
    cases hup : env.unpackPlatform <;> cases hc : classify cfg <;>
    cases huc : env.unpackConfig <;> cases hti : env.tfInit <;>
      simp [generate, htd, hwv, hup, hc, huc, hti, GenResult.trace]

/-- C3: with the steps before classification succeeding and no recognized
platform section set, Generate returns exactly the no known platform error
and neither terraform init nor terraform apply is invoked. -/
theorem generate_no_known_platform (env : Env) (cfg : InstallConfig)
    (tfVars c0 : List File) (d : String)
    (h1 : env.tempDir = Except.ok d) (h2 : tfVars ≠ [])
    (h3 : env.writeVars = Except.ok ()) (h4 : env.unpackPlatform = Except.ok ())
    (h5 : cfg.platform.aws = none) (h6 : cfg.platform.openstack = none)
    (h7 : cfg.platform.libvirt = none) :
    (generate env cfg tfVars c0).err = some "no known platform"
      ∧ Event.terraformInit ∉ (generate env cfg tfVars c0).trace
      ∧ Event.terraformApply ∉ (generate env cfg tfVars c0).trace := by
  cases tfVars with
  | nil => exact absurd rfl h2
  | cons v vs =>
    cases hm : env.marshal <;>
      simp [generate, h1, h3, h4, classify, h5, h6, h7, finalize, hm,
        GenResult.err, GenResult.trace]

/-- C3 witness: the all-succeeding environment with a platform-free install
config returns the no known platform error without invoking terraform. -/
theorem generate_no_known_platform_witness :
    (generate envAllOk cfgNoPlatform tfv1 []).err = some "no known platform"
      ∧ Event.terraformInit ∉ (generate envAllOk cfgNoPlatform tfv1 []).trace
      ∧ Event.terraformApply ∉ (generate envAllOk cfgNoPlatform tfv1 []).trace :=
  generate_no_known_platform envAllOk cfgNoPlatform tfv1 [] "d"
    rfl (by decide) rfl rfl rfl rfl rfl

/-- C4: once terraform apply has run, the state file read-back is attempted
regardless of the apply outcome and the state file is staged when readable; a
failed apply yields the wrapped apply error even when the read-back also
fails, and a failed read-back after a successful apply becomes the returned
error. -/
theorem generate_state_readback (env : Env) (cfg : InstallConfig)
    (tfVars c0 : List File) (d : String) (m : ClusterMetadata)
    (h1 : env.tempDir = Except.ok d) (h2 : tfVars ≠ [])
    (h3 : env.writeVars = Except.ok ()) (h4 : env.unpackPlatform = Except.ok ())
    (h5 : classify cfg = some m)
    (h6 : env.unpackConfig = Except.ok ()) (h7 : env.tfInit = Except.ok ()) :
    Event.readStateFile ∈ (generate env cfg tfVars c0).trace
      ∧ (∀ bs, env.readState = Except.ok bs →
          File.mk stateFileName (FileData.bytes bs) ∈ (generate env cfg tfVars c0).files)
      ∧ (∀ e, env.applyErr = some e →
          (generate env cfg tfVars c0).err = some (wrap "failed to run terraform" e))
      ∧ (∀ e2, env.applyErr = none → env.readState = Except.error e2 →
          (generate env cfg tfVars c0).err = some e2) := by
  cases tfVars with
  | nil => exact absurd rfl h2
  | cons v vs =>
    refine ⟨?_, ?_, ?_, ?_⟩
    · simp [generate, h1, h3, h4, h5, h6, h7, GenResult.trace]
    · intro bs hbs
      cases hm : env.marshal <;> cases hae : env.applyErr <;>
        simp [generate, h1, h3, h4, h5, h6, h7, finalize, hm, hae, hbs, GenResult.files]
    · intro e he
      cases hm : env.marshal <;> cases hrs : env.readState <;>
        simp [generate, h1, h3, h4, h5, h6, h7, finalize, hm, he, hrs, GenResult.err]
    · intro e2 hae hrs
      cases hm : env.marshal <;>
        simp [generate, h1, h3, h4, h5, h6, h7, finalize, hm, hae, hrs, GenResult.err]

/-- C4 witness: with apply failing and the read-back failing too, Generate
returns the wrapped apply error and the read of the state file was attempted. -/
theorem generate_state_readback_witness :
    Event.readStateFile ∈ (generate envApplyReadFail cfgAWSDemo tfv1 []).trace
      ∧ (generate envApplyReadFail cfgAWSDemo tfv1 []).err
          = some "failed to run terraform: boom" := by
  have h := generate_state_readback envApplyReadFail cfgAWSDemo tfv1 [] "d" mAWS
    rfl (by decide) rfl rfl rfl rfl rfl
  exact ⟨h.1, h.2.2.1 "boom" rfl⟩

/-- C5: when metadata serialization fails, the wrapped serialization error is
returned exactly when the same run with serialization succeeding would have
returned nil; an earlier error is returned unchanged. -/
theorem generate_marshal_error_promoted_only_if_primary_nil (env : Env)
    (cfg : InstallConfig) (tfVars c0 : List File) (me : String)
    (h2 : tfVars ≠ []) (hm : env.marshal = Except.error me) :
    ((generate (env.withMarshal (Except.ok ())) cfg tfVars c0).err = none →
        (generate env cfg tfVars c0).err
          = some (wrap "failed to Marshal ClusterMetadata" me))
      ∧ ∀ e, (generate (env.withMarshal (Except.ok ())) cfg tfVars c0).err = some e →
          (generate env cfg tfVars c0).err = some e := by
  cases tfVars with
  | nil => exact absurd rfl h2
  | cons v vs =>
    cases htd : env.tempDir <;> cases hwv : env.writeVars <;>
      cases hup : env.unpackPlatform <;> cases hc : classify cfg <;>
      cases huc : env.unpackConfig <;> cases hti : env.tfInit <;>
      cases hae : env.applyErr <;> cases hrs : env.readState <;>
        simp [generate, Env.withMarshal, htd, hwv, hup, hc, huc, hti, hae, hrs,
          hm, finalize, GenResult.err]

/-- C5 witness: with every other operation succeeding and serialization
failing, Generate returns the wrapped serialization error. -/
theorem generate_marshal_error_promoted_witness :
    (generate envMarshalFail cfgAWSDemo tfv1 []).err
        = some "failed to Marshal ClusterMetadata: nojson" := by
  have h := generate_marshal_error_promoted_only_if_primary_nil envMarshalFail
    cfgAWSDemo tfv1 [] "nojson" (by decide) rfl
  exact h.1 (by decide)

/-- C6: for an AWS install config with region us-test-1, name demo and any
cluster ID, every run that reaches the metadata finalizer with serialization
succeeding stages a metadata.json file decoding to the record with cluster
name demo and an AWS section carrying that region and the tectonicClusterID
identifier, whatever the outcome of the later steps, apply included. -/
theorem generate_metadata_content_aws (env : Env) (cid : String)
    (tfVars c0 : List File) (d : String)
    (h1 : env.tempDir = Except.ok d) (h2 : tfVars ≠ [])
    (h3 : env.writeVars = Except.ok ()) (h4 : env.unpackPlatform = Except.ok ())
    (h5 : env.marshal = Except.ok ()) :
    ∃ f ∈ (generate env ⟨"demo", cid, ⟨some ⟨"us-test-1"⟩, none, none⟩⟩ tfVars c0).files,
      f.filename = MetadataFilename
        ∧ decodeClusterMetadata f.data
            = some ⟨"demo", some ⟨"us-test-1", [("tectonicClusterID", cid)]⟩, none, none⟩ := by
  cases tfVars with
  | nil => exact absurd rfl h2
  | cons v vs =>
    cases huc : env.unpackConfig <;> cases hti : env.tfInit <;>
      cases hae : env.applyErr <;> cases hrs : env.readState <;>
        simp [generate, h1, h3, h4, h5, classify, finalize, huc, hti, hae, hrs,
          GenResult.files, decodeClusterMetadata, MetadataFilename] <;>
        exact ⟨⟨"metadata.json", FileData.metaJSON
            ⟨"demo", some ⟨"us-test-1", [("tectonicClusterID", cid)]⟩, none, none⟩⟩,
          by simp, rfl, rfl⟩

/-- C6 witness: with apply failing and the read-back failing, the staged
metadata.json still decodes to the expected record. -/
theorem generate_metadata_content_aws_witness :
    ∃ f ∈ (generate envApplyReadFail
        ⟨"demo", "cid-123", ⟨some ⟨"us-test-1"⟩, none, none⟩⟩ tfv1 []).files,
      f.filename = MetadataFilename
        ∧ decodeClusterMetadata f.data
            = some ⟨"demo", some ⟨"us-test-1", [("tectonicClusterID", "cid-123")]⟩,
                none, none⟩ :=
  generate_metadata_content_aws envApplyReadFail "cid-123" tfv1 [] "d"
    rfl (by decide) rfl rfl rfl

/-- C7 counterexample: in the all-succeeding run on the AWS config, the
platform templates are materialized before the classification switch runs, so
classification does not precede materialization. -/
theorem generate_classify_not_before_unpack :
    ¬ ((generate envAllOk cfgAWSDemo tfv1 []).trace.indexOf Event.classifyPlatform
        < (generate envAllOk cfgAWSDemo tfv1 []).trace.indexOf
            Event.unpackPlatformTemplates) := by
  decide

/-- C7 amended: in every run of Generate that reaches platform
classification, the platform templates were materialized strictly earlier;
only the config.tf materialization comes after classification. -/
theorem generate_unpack_precedes_classify (env : Env) (cfg : InstallConfig)
    (tfVars c0 : List File)
    (h : Event.classifyPlatform ∈ (generate env cfg tfVars c0).trace) :
    (generate env cfg tfVars c0).trace.indexOf Event.unpackPlatformTemplates
        < (generate env cfg tfVars c0).trace.indexOf Event.classifyPlatform
      ∧ (Event.unpackConfigTf ∈ (generate env cfg tfVars c0).trace →
          (generate env cfg tfVars c0).trace.indexOf Event.classifyPlatform
            < (generate env cfg tfVars c0).trace.indexOf Event.unpackConfigTf) := by
  cases htd : env.tempDir <;> cases tfVars <;> cases hwv : env.writeVars <;>
    cases hup : env.unpackPlatform <;> cases hc : classify cfg <;>
    cases huc : env.unpackConfig <;> cases hti : env.tfInit <;>
      simp_all [generate, GenResult.trace]

/-- C7 amended witness: in the all-succeeding AWS run, template
materialization precedes classification, which precedes config.tf. -/
theorem generate_unpack_precedes_classify_witness :
    (generate envAllOk cfgAWSDemo tfv1 []).trace.indexOf Event.unpackPlatformTemplates
        < (generate envAllOk cfgAWSDemo tfv1 []).trace.indexOf Event.classifyPlatform
      ∧ (Event.unpackConfigTf ∈ (generate envAllOk cfgAWSDemo tfv1 []).trace →
          (generate envAllOk cfgAWSDemo tfv1 []).trace.indexOf Event.classifyPlatform
            < (generate envAllOk cfgAWSDemo tfv1 []).trace.indexOf Event.unpackConfigTf) :=
  generate_unpack_precedes_classify envAllOk cfgAWSDemo tfv1 [] (by decide)

/-- C8: whenever the temporary directory is created, every exit of Generate,
normal return or panic, removes it last of all. -/
theorem generate_tempdir_removed_last (env : Env) (cfg : InstallConfig)
    (tfVars c0 : List File) (d : String) (h : env.tempDir = Except.ok d) :
    ((generate env cfg tfVars c0).trace).getLast? = some Event.removeTempDir := by
  cases tfVars <;> cases hwv : env.writeVars <;>
    cases hup : env.unpackPlatform <;> cases hc : classify cfg <;>
    cases huc : env.unpackConfig <;> cases hti : env.tfInit <;>
      simp [generate, h, hwv, hup, hc, huc, hti, GenResult.trace]

/-- C8 witness: the all-succeeding run removes the temporary directory as its
final action. -/
theorem generate_tempdir_removed_last_witness :
    ((generate envAllOk cfgAWSDemo tfv1 []).trace).getLast? = some Event.removeTempDir :=
  generate_tempdir_removed_last envAllOk cfgAWSDemo tfv1 [] "d" rfl

/-- C10: when classification fails with no known platform while the metadata
finalizer is registered and serialization succeeds, the finalizer still
appends a metadata.json record carrying only the cluster name, so the
FileList is non-empty. -/
theorem generate_metadata_after_no_platform (env : Env) (cfg : InstallConfig)
    (tfVars c0 : List File) (d : String)
    (h1 : env.tempDir = Except.ok d) (h2 : tfVars ≠ [])
    (h3 : env.writeVars = Except.ok ()) (h4 : env.unpackPlatform = Except.ok ())
    (h5 : env.marshal = Except.ok ())
    (h6 : cfg.platform.aws = none) (h7 : cfg.platform.openstack = none)
    (h8 : cfg.platform.libvirt = none) :
    (generate env cfg tfVars c0).err = some "no known platform"
      ∧ (generate env cfg tfVars c0).files
          = c0 ++ [File.mk MetadataFilename
              (FileData.metaJSON ⟨cfg.name, none, none, none⟩)]
      ∧ (generate env cfg tfVars c0).files ≠ [] := by
  cases tfVars with
  | nil => exact absurd rfl h2
  | cons v vs =>
    simp [generate, h1, h3, h4, classify, h6, h7, h8, finalize, h5,
      GenResult.err, GenResult.files]

/-- C10 witness: the all-succeeding environment with a platform-free config
stages exactly the name-only metadata record. -/
theorem generate_metadata_after_no_platform_witness :
    (generate envAllOk cfgNoPlatform tfv1 []).err = some "no known platform"
      ∧ (generate envAllOk cfgNoPlatform tfv1 []).files
          = [] ++ [File.mk MetadataFilename
              (FileData.metaJSON ⟨cfgNoPlatform.name, none, none, none⟩)]
      ∧ (generate envAllOk cfgNoPlatform tfv1 []).files ≠ [] :=
  generate_metadata_after_no_platform envAllOk cfgNoPlatform tfv1 [] "d"
    rfl (by decide) rfl rfl rfl rfl rfl rfl

/-- C9: Generate panics with an out-of-bounds index exactly when the
temporary directory was created and the terraform variables dependency holds
no output file; with at least one file the indexing branch is unreachable. -/
theorem generate_panics_iff_empty_tfvars (env : Env) (cfg : InstallConfig)
    (tfVars c0 : List File) :
    (generate env cfg tfVars c0).isPanicked = true ↔
      ((∃ d, env.tempDir = Except.ok d) ∧ tfVars = []) := by
  cases htd : env.tempDir <;> cases tfVars <;> cases hwv : env.writeVars <;>
    cases hup : env.unpackPlatform <;> cases hc : classify cfg <;>
    cases huc : env.unpackConfig <;> cases hti : env.tfInit <;>
      simp [generate, htd, hwv, hup, hc, huc, hti, GenResult.isPanicked]

end Installer
